import Mathlib
set_option maxRecDepth 8192

/-!
Verification of the JSON→SQL converter in
`MySql/JSON_Scripts/generate_ml_baselines_sql.py` (Sales_Health_Monitor).

The Python script is embedded shallowly:

* Parsed JSON documents become the inductive `JValue`; Python's
  `int`/`float` split is kept in `PyNum` (floats are modelled as exact
  rationals — every numeric value a settled claim evaluates is exactly
  representable and IEEE rounding agrees there).
* Python truthiness, `dict.get`, the `or`-fallback idiom and f-string
  interpolation via `str()` are modelled by `pyTruthy`, `dictGet` /
  `dictGetD`, `pyOr` and `pyStr`.
* Each `process_*` method of `MLBaselinesConverter` becomes a function
  from the parsed document to the list of strings it appends to
  `self.sql_sections`; `process_ml_baselines` and the orchestration loop
  return `Except PyErr _` because the metric-tree extractor can raise a
  `TypeError` (multiplying a non-numeric truthy baseline by a float).
-/

/-- Python number: `json` produces `int` or `float`; we keep the tag.
Floats are modelled as exact rationals. -/
inductive PyNum where
  | int : ℤ → PyNum
  | float : ℚ → PyNum
deriving DecidableEq, Repr

/-- A parsed JSON document (the values `json.load` can return). -/
inductive JValue where
  | null : JValue
  | bool : Bool → JValue
  | num : PyNum → JValue
  | str : String → JValue
  | arr : List JValue → JValue
  | obj : List (String × JValue) → JValue
deriving Repr

/-- The only exception the embedded code can raise: Python's `TypeError`
from multiplying a non-numeric value by a float. -/
inductive PyErr where
  | typeError : PyErr
deriving DecidableEq, Repr

/-- Single-quote character, kept out of string literals. -/
def quoteChar : Char := Char.ofNat 39

/-- Double-quote character. -/
def dquoteChar : Char := Char.ofNat 34

/-- A single quote as a string. -/
def quoteStr : String := String.mk [quoteChar]

/-- Python truthiness (`bool(v)`): `None`, `False`, `0`, `0.0`, `""`,
`[]` and `{}` are falsy, everything else truthy. -/
def pyTruthy : JValue → Bool
  | .null => false
  | .bool b => b
  | .num (.int n) => !(n == 0)
  | .num (.float q) => !(q == 0)
  | .str s => !(s == "")
  | .arr l => !l.isEmpty
  | .obj l => !l.isEmpty

/-- Association-list lookup: Python dict access (parsed JSON objects have
unique keys, so first match is the binding). -/
def dictLookup : List (String × JValue) → String → Option JValue
  | [], _ => none
  | (k, v) :: rest, key => if k = key then some v else dictLookup rest key

/-- `record.get(k)`: the value if the key is present, `None` otherwise. -/
def dictGet (r : List (String × JValue)) (k : String) : JValue :=
  (dictLookup r k).getD .null

/-- `record.get(k, d)`: the value if the key is present, else the default. -/
def dictGetD (r : List (String × JValue)) (k : String) (d : JValue) : JValue :=
  (dictLookup r k).getD d

/-- Python's `a or b`: `a` if truthy, else `b`. -/
def pyOr (a b : JValue) : JValue := if pyTruthy a then a else b

/-- Rendering of a Python float whose value is an integer (`120.0` etc.);
non-terminating cases fall back to a fraction notation — no settled claim
evaluates one. -/
def floatRepr (q : ℚ) : String :=
  if q.den = 1 then toString q.num ++ ".0" else toString q.num ++ "/" ++ toString q.den

mutual

/-- Python `repr(v)` (used for elements when a container is stringified). -/
def pyRepr : JValue → String
  | .null => "None"
  | .bool true => "True"
  | .bool false => "False"
  | .num (.int n) => toString n
  | .num (.float q) => floatRepr q
  | .str s => quoteStr ++ s ++ quoteStr
  | .arr l => "[" ++ pyReprArr l ++ "]"
  | .obj kvs => "\x7b" ++ pyReprObj kvs ++ "\x7d"

/-- Comma-joined `repr`s of list elements. -/
def pyReprArr : List JValue → String
  | [] => ""
  | [v] => pyRepr v
  | v :: rest => pyRepr v ++ ", " ++ pyReprArr rest

/-- Comma-joined `repr`ed key/value pairs of a dict. -/
def pyReprObj : List (String × JValue) → String
  | [] => ""
  | [(k, v)] => quoteStr ++ k ++ quoteStr ++ ": " ++ pyRepr v
  | (k, v) :: rest => quoteStr ++ k ++ quoteStr ++ ": " ++ pyRepr v ++ ", " ++ pyReprObj rest

end

/-- Python `str(v)`: like `repr` except strings are returned unquoted. -/
def pyStr : JValue → String
  | .str s => s
  | v => pyRepr v

/-- One character of the sanitizer's replace chain: double single quotes,
double double-quotes, turn newline/carriage-return into a space.  The four
sequential `str.replace` calls of the source are equivalent to this single
character map because no replacement output overlaps a later pattern. -/
def escapeChar (c : Char) : List Char :=
  if c = quoteChar then [c, c]
  else if c = dquoteChar then [c, c]
  else if c = Char.ofNat 10 then [' ']
  else if c = Char.ofNat 13 then [' ']
  else [c]

/-- The string branch of `escape_sql_string`: `str(value)` with quotes
doubled and newlines/carriage-returns replaced by spaces. -/
def escapeText (s : String) : String :=
  String.mk (s.data.flatMap escapeChar)

/-- `isinstance(value, (int, float))` — true for Python booleans as well,
because `bool` is a subclass of `int`. -/
def isIntOrFloat : JValue → Bool
  | .num _ => true
  | .bool _ => true
  | _ => false

/-- `MLBaselinesConverter.escape_sql_string` (source lines 120–128).
Branch order matches the source: the `None` test, then the
`isinstance(value, (int, float))` test (which also captures booleans),
then the — consequently unreachable — `isinstance(value, bool)` branch,
then the string replace chain. -/
def escape_sql_string (v : JValue) : String :=
  match v with
  | .null => "NULL"
  | v =>
    if isIntOrFloat v then pyStr v
    else
      match v with
      | .bool b => if b then "1" else "0"
      | _ => escapeText (pyStr v)


/-- `sep.join(parts)` (Python string join). -/
def joinSep (sep : String) : List String → String
  | [] => ""
  | [v] => v
  | v :: rest => v ++ sep ++ joinSep sep rest

/-- The batch loop `for i in range(0, len(values), batch_size)` indexes
consecutive slices `values[i:i+batch_size]`; `chunksOf n l` is that slice
sequence.  The `n = 0` case never arises (the script fixes
`batch_size = 1000`; Python would raise on a zero step). -/
def chunksOf : ℕ → List String → List (List String)
  | _, [] => []
  | 0, l => [l]
  | n + 1, x :: xs => ((x :: xs).take (n + 1)) :: chunksOf (n + 1) ((x :: xs).drop (n + 1))
termination_by _ l => l.length
decreasing_by simp; omega

/-- Section banner appended by `process_behavioral_anomalies` (lines 136–139). -/
def bannerAnomalies : String :=
  "\n-- ===============================================================\n-- SECTION 1: BEHAVIORAL ANOMALIES → customer_anomalies\n-- ==============================================================="

/-- Section banner appended by `process_customer_baselines` (lines 207–210);
the source line has two trailing spaces after the table name. -/
def bannerBaselines : String :=
  "\n-- ===============================================================\n-- SECTION 2: CUSTOMER BASELINES → customer_baselines  \n-- ==============================================================="

/-- Section banner appended by `process_segment_performance` (lines 266–269). -/
def bannerSegment : String :=
  "\n-- ===============================================================\n-- SECTION 3: SEGMENT PERFORMANCE → segment_performance\n-- ==============================================================="

/-- Section banner appended once by `process_ml_baselines` (lines 316–319). -/
def bannerML : String :=
  "\n-- ===============================================================\n-- SECTION 4: ML BASELINES → ml_baselines (consolidated)\n-- ==============================================================="

/-- The `INSERT INTO customer_anomalies … VALUES` line (source line 193). -/
def anomInsertHeader : String :=
  "INSERT INTO customer_anomalies (customer_id, customer_segment, value_tier, severity, flags, types) VALUES"

/-- The `INSERT INTO customer_baselines … VALUES` line (source line 252). -/
def baseInsertHeader : String :=
  "INSERT INTO customer_baselines (customer_id, health_score, frequency_score, monetary_value, recency_days, value_tier, activity_segment, clv_score, customer_health_score, customer_segment) VALUES"

/-- The `INSERT INTO segment_performance … VALUES` line (source line 301). -/
def segInsertHeader : String :=
  "INSERT INTO segment_performance (segment, channel, region, total_revenue, transaction_count, avg_transaction_value, market_share_pct) VALUES"

/-- The `INSERT INTO ml_baselines … VALUES` line (source line 347). -/
def mlInsertHeader : String :=
  "INSERT INTO ml_baselines (dimension, metric_name, baseline_value, threshold_upper, threshold_lower, data_source) VALUES"

/-- Recognise one of the four emitted `INSERT INTO … VALUES` lines. -/
def isInsertHeader (s : String) : Bool :=
  s == anomInsertHeader || s == baseInsertHeader || s == segInsertHeader || s == mlInsertHeader

/-- Count of `INSERT` statements in a section list (each statement is
emitted as its header line followed by a values line). -/
def insertHeaderCount (sections : List String) : ℕ :=
  sections.countP fun s => isInsertHeader s

/-- Named container keys tried by the Anomaly Extractor (line 145). -/
def anomalyNamedKeys : List String := ["customer_anomalies", "behavioral_anomalies", "anomalies"]

/-- The first named key bound to a list wins (lines 146–149); a named key
bound to a non-list is skipped. -/
def firstNamedList (kvs : List (String × JValue)) : List String → List JValue
  | [] => []
  | k :: ks =>
    match dictLookup kvs k with
    | some (JValue.arr l) => l
    | _ => firstNamedList kvs ks

/-- Field keys whose presence in a list's first element makes the
heuristic scan accept the list (line 154). -/
def anomalyFieldKeys : List String := ["customer_id", "customerid", "severity", "changes"]

/-- A mapping value qualifies for the heuristic scan when it is a
non-empty list whose first element is a mapping containing one of the
`anomalyFieldKeys` (lines 153–154). -/
def qualifies : JValue → Bool
  | .arr (x :: _) =>
    match x with
    | .obj fields => anomalyFieldKeys.any fun k => (dictLookup fields k).isSome
    | _ => false
  | _ => false

/-- The list content of a JSON value (empty for non-lists). -/
def JValue.asArr : JValue → List JValue
  | .arr l => l
  | _ => []

/-- Heuristic scan over the mapping's values (lines 151–156): first
qualifying value wins. -/
def scanList : List (String × JValue) → List JValue
  | [] => []
  | (_, v) :: rest => if qualifies v then v.asArr else scanList rest

/-- Locate the anomaly record list (lines 144–158): named keys first,
then the heuristic scan (also run when a named key held an empty list),
a top-level list is used directly, anything else yields no records. -/
def anomalyRecords : JValue → List JValue
  | .obj kvs =>
    let named := firstNamedList kvs anomalyNamedKeys
    if named.isEmpty then scanList kvs else named
  | .arr l => l
  | _ => []

/-- The six resolved output fields of one anomaly record. -/
structure AnomalyFields where
  customer_id : JValue
  customer_segment : JValue
  value_tier : JValue
  severity : JValue
  flags : JValue
  types : JValue
deriving Repr

/-- Field resolution for one anomaly record (lines 164–178): `or`-chains
for customer_id/severity/flags/types (first *truthy* candidate wins),
`get`-with-default chains for segment and tier (first *present* key
wins); a list-valued `types` is joined with commas. -/
def anomalyFields (fs : List (String × JValue)) (count : ℕ) : AnomalyFields :=
  let types0 := pyOr (dictGet fs "types")
      (pyOr (dictGet fs "anomaly_types") (dictGetD fs "changes" (.str "")))
  { customer_id := pyOr (dictGet fs "customer_id")
      (pyOr (dictGet fs "customerid") (.str ("UNKNOWN_" ++ toString count)))
    customer_segment := dictGetD fs "customer_segment"
      (dictGetD fs "customersegment" (.str "Unknown"))
    value_tier := dictGetD fs "value_tier" (dictGetD fs "valuetier" (.str "Unknown"))
    severity := pyOr (dictGet fs "severity")
      (pyOr (dictGet fs "anomaly_severity") (dictGetD fs "riskscore" (.str "Normal")))
    flags := pyOr (dictGet fs "flags")
      (pyOr (dictGet fs "anomaly_flags") (dictGetD fs "riskscore" (.num (.int 0))))
    types := match types0 with
      | .arr l => .str (joinSep "," (l.map pyStr))
      | v => v }

/-- The per-record loop of `process_behavioral_anomalies` (lines 162–187):
non-mapping records are skipped and `record_count` increments only for
mapping records. -/
def anomalyFieldsList : List JValue → ℕ → List AnomalyFields
  | [], _ => []
  | .obj fs :: rest, c => anomalyFields fs c :: anomalyFieldsList rest (c + 1)
  | _ :: rest, c => anomalyFieldsList rest c

/-- One anomaly VALUES tuple (source line 186); `flags` is interpolated
raw, the other fields are escaped and single-quoted. -/
def anomalyTuple (f : AnomalyFields) : String :=
  "(" ++ (quoteStr ++ escape_sql_string f.customer_id ++ quoteStr ++ ", " ++
    quoteStr ++ escape_sql_string f.customer_segment ++ quoteStr ++ ", " ++
    quoteStr ++ escape_sql_string f.value_tier ++ quoteStr ++ ", " ++
    quoteStr ++ escape_sql_string f.severity ++ quoteStr ++ ", " ++
    pyStr f.flags ++ ", " ++
    quoteStr ++ escape_sql_string f.types ++ quoteStr ++ ")")

/-- The `values` list built by `process_behavioral_anomalies`. -/
def anomalyTuples (d : JValue) : List String :=
  (anomalyFieldsList (anomalyRecords d) 0).map anomalyTuple

/-- `process_behavioral_anomalies` (lines 130–199) as the list of strings
it appends to `sql_sections`: nothing for a falsy document; otherwise the
Section 1 banner, then — when any tuples were built — one
`INSERT INTO customer_anomalies … VALUES` header and one comma-joined
values line per 1000-tuple batch, then an empty-string spacer. -/
def process_behavioral_anomalies (d : JValue) : List String :=
  if pyTruthy d then
    bannerAnomalies ::
      (let values := anomalyTuples d
       if values.isEmpty then []
       else ((chunksOf 1000 values).flatMap fun b => [anomInsertHeader, joinSep ",\n" b ++ ";"]) ++ [""])
  else []


/-- Python `f"{i:06d}"` for a natural index: decimal form left-padded
with zeros to width six. -/
def pad6 (i : ℕ) : String :=
  String.mk (List.replicate (6 - (toString i).length) '0') ++ toString i

/-- Named container keys tried by the Customer Baseline Extractor
(line 216); there is no heuristic scan for this entity. -/
def baselineNamedKeys : List String :=
  ["customer_intelligence_records", "customer_baselines", "customers", "customerintelligencerecords"]

/-- Locate the customer-baseline record list (lines 215–219). -/
def baselineRecords : JValue → List JValue
  | .obj kvs => firstNamedList kvs baselineNamedKeys
  | _ => []

/-- The ten resolved output fields of one customer-baseline record. -/
structure BaselineFields where
  customer_id : JValue
  health_score : JValue
  frequency_score : JValue
  monetary_value : JValue
  recency_days : JValue
  value_tier : JValue
  activity_segment : JValue
  clv_score : JValue
  customer_health_score : JValue
  customer_segment : JValue
deriving Repr

/-- Field resolution for one customer-baseline record (lines 226–238);
`i` is the `enumerate` index.  `customer_health_score` falls back to the
already-resolved `health_score` value. -/
def baselineFields (fs : List (String × JValue)) (i : ℕ) : BaselineFields :=
  let health_score := dictGetD fs "customer_health_score"
    (dictGetD fs "health_score" (.num (.float 50)))
  { customer_id := pyOr (dictGet fs "customer_id")
      (pyOr (dictGet fs "customerid") (.str ("CUST_" ++ pad6 i)))
    health_score := health_score
    frequency_score := dictGetD fs "frequency_count" (dictGetD fs "frequency_score" (.num (.int 0)))
    monetary_value := dictGetD fs "monetary_total" (dictGetD fs "monetary_value" (.num (.float 0)))
    recency_days := dictGetD fs "recency_days" (.num (.int 0))
    value_tier := dictGetD fs "value_tier" (.str "Medium")
    activity_segment := dictGetD fs "activity_segment" (dictGetD fs "activitysegment" (.str "Unknown"))
    clv_score := dictGetD fs "clv_score" (dictGetD fs "clvscore" (.num (.float 0)))
    customer_health_score := dictGetD fs "customer_health_score"
      (dictGetD fs "customerhealthscore" health_score)
    customer_segment := dictGetD fs "customer_segment" (dictGetD fs "customersegment" (.str "Standard")) }

/-- The per-record loop of `process_customer_baselines` (lines 224–246):
`enumerate` advances the index for every element, mapping records only. -/
def baselineFieldsList : List JValue → ℕ → List BaselineFields
  | [], _ => []
  | .obj fs :: rest, i => baselineFields fs i :: baselineFieldsList rest (i + 1)
  | _ :: rest, i => baselineFieldsList rest (i + 1)

/-- One customer-baseline VALUES tuple (source line 245); numeric-slot
fields are interpolated raw, text-slot fields escaped and quoted. -/
def baselineTuple (f : BaselineFields) : String :=
  "(" ++ (quoteStr ++ escape_sql_string f.customer_id ++ quoteStr ++ ", " ++
    pyStr f.health_score ++ ", " ++
    pyStr f.frequency_score ++ ", " ++
    pyStr f.monetary_value ++ ", " ++
    pyStr f.recency_days ++ ", " ++
    quoteStr ++ escape_sql_string f.value_tier ++ quoteStr ++ ", " ++
    quoteStr ++ escape_sql_string f.activity_segment ++ quoteStr ++ ", " ++
    pyStr f.clv_score ++ ", " ++
    pyStr f.customer_health_score ++ ", " ++
    quoteStr ++ escape_sql_string f.customer_segment ++ quoteStr ++ ")")

/-- The `values` list built by `process_customer_baselines`. -/
def baselineTuples (d : JValue) : List String :=
  (baselineFieldsList (baselineRecords d) 0).map baselineTuple

/-- `process_customer_baselines` (lines 201–258) as the list of strings it
appends: Section 2 banner, then 1000-tuple `INSERT` batches as for
Section 1. -/
def process_customer_baselines (d : JValue) : List String :=
  if pyTruthy d then
    bannerBaselines ::
      (let values := baselineTuples d
       if values.isEmpty then []
       else ((chunksOf 1000 values).flatMap fun b => [baseInsertHeader, joinSep ",\n" b ++ ";"]) ++ [""])
  else []

/-- Named container keys tried by the Segment Performance Extractor (line 275). -/
def segmentNamedKeys : List String := ["channel_performance", "segment_baselines", "segmentbaselines"]

/-- Locate the segment-performance record list (lines 274–279). -/
def segmentRecords : JValue → List JValue
  | .obj kvs => firstNamedList kvs segmentNamedKeys
  | _ => []

/-- The seven resolved output fields of one segment-performance record. -/
structure SegmentFields where
  segment : JValue
  channel : JValue
  region : JValue
  total_revenue : JValue
  transaction_count : JValue
  avg_transaction_value : JValue
  market_share_pct : JValue
deriving Repr

/-- Field resolution for one segment-performance record (lines 285–291):
all chains are `get`-with-default (presence-based). -/
def segmentFields (fs : List (String × JValue)) : SegmentFields :=
  { segment := dictGetD fs "customer_segment" (dictGetD fs "segment" (.str "Unknown"))
    channel := dictGetD fs "sales_channel" (dictGetD fs "channel" (.str "Unknown"))
    region := dictGetD fs "region" (.str "Unknown")
    total_revenue := dictGetD fs "total_amount" (dictGetD fs "total_revenue" (.num (.float 0)))
    transaction_count := dictGetD fs "transaction_count" (dictGetD fs "count" (.num (.int 0)))
    avg_transaction_value := dictGetD fs "avg_transaction_value" (.num (.float 0))
    market_share_pct := dictGetD fs "market_share_pct" (.num (.float 0)) }

/-- One segment-performance VALUES tuple (source line 297). -/
def segmentTuple (f : SegmentFields) : String :=
  "(" ++ (quoteStr ++ escape_sql_string f.segment ++ quoteStr ++ ", " ++
    quoteStr ++ escape_sql_string f.channel ++ quoteStr ++ ", " ++
    quoteStr ++ escape_sql_string f.region ++ quoteStr ++ ", " ++
    pyStr f.total_revenue ++ ", " ++
    pyStr f.transaction_count ++ ", " ++
    pyStr f.avg_transaction_value ++ ", " ++
    pyStr f.market_share_pct ++ ")")

/-- The `values` list built by `process_segment_performance`
(lines 282–298): one tuple per mapping record. -/
def segmentTuples (d : JValue) : List String :=
  (segmentRecords d).filterMap fun r =>
    match r with
    | .obj fs => some (segmentTuple (segmentFields fs))
    | _ => none

/-- `process_segment_performance` (lines 260–306) as the list of strings
it appends: Section 3 banner, then — unlike Sections 1 and 2 — a single
`INSERT` statement holding every tuple (the source has no batch loop
here, lines 300–304). -/
def process_segment_performance (d : JValue) : List String :=
  if pyTruthy d then
    bannerSegment ::
      (let values := segmentTuples d
       if values.isEmpty then []
       else [segInsertHeader, joinSep ",\n" values ++ ";", ""])
  else []

/-- The rational value of a Python number. -/
def PyNum.toRat : PyNum → ℚ
  | .int n => (n : ℚ)
  | .float q => q

/-- Whether a Python number is truthy (non-zero). -/
def pyNumTruthy (b : PyNum) : Bool := !(b.toRat == 0)

/-- Python number × float: always a float. -/
def pyNumMulF (b : PyNum) (q : ℚ) : PyNum := .float (b.toRat * q)

/-- Python `v * q` with `q` a float: numbers (and `bool`s, which are
ints) multiply; any other operand raises `TypeError`. -/
def pyMulFloat (v : JValue) (q : ℚ) : Except PyErr JValue :=
  match v with
  | .num b => .ok (.num (pyNumMulF b q))
  | .bool b => .ok (.num (.float ((if b then 1 else 0) * q)))
  | _ => .error .typeError

/-- The eagerly-evaluated threshold default
`baseline_value * q if baseline_value else 0` (lines 331–332): a falsy
baseline gives the int `0` without multiplying; a truthy non-numeric
baseline raises. -/
def pyMulDefault (v : JValue) (q : ℚ) : Except PyErr JValue :=
  if pyTruthy v then pyMulFloat v q else .ok (.num (.int 0))

/-- `float(metric_data) if isinstance(metric_data, (int, float)) else 0.0`
(line 334); booleans are ints, so they coerce. -/
def pyFloatCoerce : JValue → ℚ
  | .num b => b.toRat
  | .bool b => if b then 1 else 0
  | _ => 0

/-- Baseline and threshold resolution for a single metric entry
(lines 329–336).  For a mapping entry the threshold defaults
`baseline * 1.2` / `baseline * 0.8` are evaluated eagerly — Python
evaluates `dict.get`'s default argument before the call — so a truthy
non-numeric baseline raises even when explicit thresholds are present.
For a scalar entry the baseline is coerced to a float first, so the
multiplications are always defined. -/
def mlThresholds : JValue → Except PyErr (JValue × JValue × JValue)
  | .obj ms =>
    let baseline := dictGetD ms "baseline" (dictGetD ms "mean" (.num (.float 0)))
    match pyMulDefault baseline (6 / 5) with
    | .error e => .error e
    | .ok upDefault =>
      match pyMulDefault baseline (4 / 5) with
      | .error e => .error e
      | .ok loDefault =>
        .ok (baseline,
          dictGetD ms "upper_threshold" (dictGetD ms "max" upDefault),
          dictGetD ms "lower_threshold" (dictGetD ms "min" loDefault))
  | md =>
    let b : PyNum := .float (pyFloatCoerce md)
    .ok (.num b, .num (pyNumMulF b (6 / 5)), .num (pyNumMulF b (4 / 5)))

/-- One ml-baseline VALUES tuple (source lines 338–343): dimension,
metric name and `"<source>.json"` escaped and quoted, the numeric slots
interpolated raw. -/
def mlRowString (dim src name : String) (baseline up lo : JValue) : String :=
  "(" ++ (quoteStr ++ escapeText dim ++ quoteStr ++ ", " ++
    quoteStr ++ escapeText name ++ quoteStr ++ ", " ++
    pyStr baseline ++ ", " ++
    pyStr up ++ ", " ++
    pyStr lo ++ ", " ++
    quoteStr ++ escapeText (src ++ ".json") ++ quoteStr ++ ")")

/-- One metric entry of the inner mapping → one VALUES tuple. -/
def mlMetricRow (dim src name : String) (md : JValue) : Except PyErr String :=
  match mlThresholds md with
  | .error e => .error e
  | .ok (b, u, l) => .ok (mlRowString dim src name b u l)

/-- The inner loop over `metrics.items()` (lines 328–344); a raised
`TypeError` aborts the whole loop. -/
def mlRowsOfMetrics (dim src : String) : List (String × JValue) → Except PyErr (List String)
  | [] => .ok []
  | (name, md) :: rest =>
    match mlMetricRow dim src name md with
    | .error e => .error e
    | .ok row =>
      match mlRowsOfMetrics dim src rest with
      | .error e => .error e
      | .ok rows => .ok (row :: rows)

/-- The outer loop over `data.items()` (lines 326–327): non-mapping
dimension values are skipped. -/
def mlRowsOfDims (src : String) : List (String × JValue) → Except PyErr (List String)
  | [] => .ok []
  | (dim, metrics) :: rest =>
    match metrics with
    | .obj ms =>
      match mlRowsOfMetrics dim src ms with
      | .error e => .error e
      | .ok rows =>
        match mlRowsOfDims src rest with
        | .error e => .error e
        | .ok more => .ok (rows ++ more)
    | _ => mlRowsOfDims src rest

/-- The full `values` list of `process_ml_baselines`: only a top-level
mapping contributes rows (line 325). -/
def mlRows (src : String) : JValue → Except PyErr (List String)
  | .obj dims => mlRowsOfDims src dims
  | _ => .ok []

/-- `process_ml_baselines` (lines 308–352): given the
`section4_header_written` flag, a truthy document appends the Section 4
banner when the flag is not yet set, then — if any rows were extracted —
a single `INSERT INTO ml_baselines … VALUES` statement (no batch loop)
and a spacer.  Returns the new flag and the appended strings, or the
uncaught `TypeError` from the extraction. -/
def process_ml_baselines (written : Bool) (d : JValue) (src : String) :
    Except PyErr (Bool × List String) :=
  if pyTruthy d then
    match mlRows src d with
    | .error e => .error e
    | .ok rows =>
      .ok (true, (if written then [] else [bannerML]) ++
        (if rows.isEmpty then [] else [mlInsertHeader, joinSep ",\n" rows ++ ";", ""]))
  else .ok (written, [])

/-- The section strings `process_ml_baselines` appends on a successful
run (empty on an exception — the run dies before output is written). -/
def mlSectionsOf (written : Bool) (d : JValue) (src : String) : List String :=
  match process_ml_baselines written d src with
  | .ok (_, s) => s
  | .error _ => []

/-- Mutable state of the conversion loop: the accumulated
`self.sql_sections`, the `section4_header_written` flag and the
`processed_count`. -/
structure ConvSt where
  sections : List String
  section4 : Bool
  processed : ℕ
deriving DecidableEq, Repr

/-- Initial converter state. -/
def initSt : ConvSt := { sections := [], section4 := false, processed := 0 }

/-- Logical names routed to `process_ml_baselines` by the `processors`
table (lines 558–563); each lambda passes its own name as source tag. -/
def mlFileTypes : List String :=
  ["ml_baselines", "category_baselines", "product_anomalies",
   "executive_kpi_dashboard", "executive_insights_summary", "ml_baseline_consolidated"]

/-- Append a processor's output and count the file as processed. -/
def appendSections (st : ConvSt) (secs : List String) : ConvSt :=
  { st with sections := st.sections ++ secs, processed := st.processed + 1 }

/-- One iteration of the `for file_type, filepath in json_files.items()`
loop (lines 567–576).  The file's load result is `none` when
`load_json_safe` caught a parse/read error (it returns `None`), `some d`
when parsing produced `d`.  A falsy or unparseable document, or a logical
name with no processor (`customer_rfm`, `customer_value_tiers`,
`executive_insights_summary` aside — see `processors`), is skipped.  The
processor call itself is *not* wrapped in a `try`, so an extractor
exception propagates. -/
def convertStep (st : ConvSt) (file : String × Option JValue) : Except PyErr ConvSt :=
  match file with
  | (_, none) => .ok st
  | (ft, some d) =>
    if pyTruthy d = false then .ok st
    else
    if ft = "behavioral_anomalies" then .ok (appendSections st (process_behavioral_anomalies d))
    else if ft = "customer_comprehensive" then .ok (appendSections st (process_customer_baselines d))
    else if ft = "customer_segments" then .ok (appendSections st (process_segment_performance d))
    else if ft ∈ mlFileTypes then
      match process_ml_baselines st.section4 d ft with
      | .error e => .error e
      | .ok (w, secs) =>
        .ok { sections := st.sections ++ secs, section4 := w, processed := st.processed + 1 }
    else .ok st

/-- The whole per-file loop of `convert_all`: an exception from a step
aborts the remaining files. -/
def convertLoop (st : ConvSt) : List (String × Option JValue) → Except PyErr ConvSt
  | [] => .ok st
  | file :: rest =>
    match convertStep st file with
    | .error e => .error e
    | .ok st' => convertLoop st' rest

/-- `convert_all` (lines 539–600), abstracted over the file system: the
input is the catalogue-ordered list of *found* files with their load
results, plus whether writing the output file succeeds.  Returns
`False` when no files were found (lines 547–549), otherwise runs the
loop and returns the write outcome (`True` on success, `False` when the
write raised, lines 583–600).  An extractor exception is not caught
anywhere, so it escapes as `Except.error`. -/
def convert_all (files : List (String × Option JValue)) (writeOk : Bool) : Except PyErr Bool :=
  if files.isEmpty then .ok false
  else
    match convertLoop initSt files with
    | .error e => .error e
    | .ok _ => .ok writeOk

/-- A single anomaly record used to exercise batch boundaries. -/
def anomRecDoc : JValue := JValue.obj [("customer_id", JValue.str "C1")]

/-- A document holding `n` anomaly records under the named key `anomalies`. -/
def anomDoc (n : ℕ) : JValue := JValue.obj [("anomalies", JValue.arr (List.replicate n anomRecDoc))]

/-- The fields `anomRecDoc` resolves to (independent of the counter). -/
def anomConstFields : AnomalyFields :=
  { customer_id := .str "C1", customer_segment := .str "Unknown", value_tier := .str "Unknown",
    severity := .str "Normal", flags := .num (.int 0), types := .str "" }

/-- A single customer-baseline record used to exercise batch boundaries. -/
def baseRecDoc : JValue := JValue.obj [("customer_id", JValue.str "B1")]

/-- A document holding `n` baseline records under `customer_baselines`. -/
def baseDoc (n : ℕ) : JValue :=
  JValue.obj [("customer_baselines", JValue.arr (List.replicate n baseRecDoc))]

/-- The fields `baseRecDoc` resolves to (independent of the index). -/
def baseConstFields : BaselineFields :=
  { customer_id := .str "B1", health_score := .num (.float 50), frequency_score := .num (.int 0),
    monetary_value := .num (.float 0), recency_days := .num (.int 0), value_tier := .str "Medium",
    activity_segment := .str "Unknown", clv_score := .num (.float 0),
    customer_health_score := .num (.float 50), customer_segment := .str "Standard" }

/-- An empty segment record: every field resolves to its default. -/
def segRecDoc : JValue := JValue.obj []

/-- A document holding `n` segment records under `channel_performance`. -/
def segDoc (n : ℕ) : JValue :=
  JValue.obj [("channel_performance", JValue.arr (List.replicate n segRecDoc))]

/-- The all-default segment fields. -/
def segConstFields : SegmentFields :=
  { segment := .str "Unknown", channel := .str "Unknown", region := .str "Unknown",
    total_revenue := .num (.float 0), transaction_count := .num (.int 0),
    avg_transaction_value := .num (.float 0), market_share_pct := .num (.float 0) }

/-- `n` scalar integer metrics under a single dimension. -/
def mlMetricKVs (n : ℕ) : List (String × JValue) :=
  (List.range n).map fun i => ("m" ++ toString i, JValue.num (PyNum.int 1))

/-- A metric-tree document holding `n` scalar metrics. -/
def mlDoc (n : ℕ) : JValue := JValue.obj [("dim", JValue.obj (mlMetricKVs n))]

/-- A successfully-parsed metric-tree document whose baseline is the
non-numeric truthy string `"abc"`: evaluating the eagerly-computed
threshold default multiplies a `str` by a float. -/
def badBaselineDoc : JValue :=
  JValue.obj [("d", JValue.obj [("m", JValue.obj [("baseline", JValue.str "abc")])])]

/-- The scan example document of C6. -/
def exampleScanList : List JValue :=
  [JValue.obj [("customer_id", JValue.str "C2"), ("severity", JValue.str "High")]]

/-- C7: a parsed document matching no recognized anomaly or segment
structure yields zero records (the extractors are total functions — no
error is signalled), and with zero tuples the emitters append only the
section banner: no `INSERT` statement at all, never an empty
`VALUES ()`. -/
theorem c7_zero_records_no_insert (d : JValue)
    (h1 : anomalyRecords d = []) (h2 : segmentRecords d = []) :
    anomalyTuples d = [] ∧ segmentTuples d = []
  ∧ process_behavioral_anomalies d = (if pyTruthy d then [bannerAnomalies] else [])
  ∧ process_segment_performance d = (if pyTruthy d then [bannerSegment] else [])
  ∧ insertHeaderCount (process_behavioral_anomalies d) = 0
  ∧ insertHeaderCount (process_segment_performance d) = 0 := by
  have ht1 : anomalyTuples d = [] := by rw [anomalyTuples, h1]; rfl
  have ht2 : segmentTuples d = [] := by rw [segmentTuples, h2]; rfl
  have hp1 : process_behavioral_anomalies d = (if pyTruthy d then [bannerAnomalies] else []) := by
    unfold process_behavioral_anomalies
    cases hd : pyTruthy d <;> simp [hd, ht1]
  have hp2 : process_segment_performance d = (if pyTruthy d then [bannerSegment] else []) := by
    unfold process_segment_performance
    cases hd : pyTruthy d <;> simp [hd, ht2]
  refine ⟨ht1, ht2, hp1, hp2, ?_, ?_⟩
  · rw [hp1]
    cases pyTruthy d <;>
      simp [insertHeaderCount, (by decide : isInsertHeader bannerAnomalies = false)]
  · rw [hp2]
    cases pyTruthy d <;>
      simp [insertHeaderCount, (by decide : isInsertHeader bannerSegment = false)]

lemma stringDataAppend (s t : String) : (s ++ t).data = s.data ++ t.data := rfl

lemma headAppendLeft {α} (l₁ l₂ : List α) (a : α) (h : l₁.head? = some a) :
    (l₁ ++ l₂).head? = some a := by
  cases l₁ with
  | nil => simp at h
  | cons x xs => simpa using h

lemma joinSepHead (sep v : String) (vs : List String) (a : Char)
    (h : v.data.head? = some a) : (joinSep sep (v :: vs)).data.head? = some a := by
  cases vs with
  | nil => simpa [joinSep] using h
  | cons w ws =>
    show ((v ++ sep) ++ joinSep sep (w :: ws)).data.head? = some a
    rw [stringDataAppend, stringDataAppend]
    exact headAppendLeft _ _ _ (headAppendLeft _ _ _ h)

lemma isInsertHeaderHead (s : String) (h : isInsertHeader s = true) :
    s.data.head? = some 'I' := by
  unfold isInsertHeader at h
  simp only [Bool.or_eq_true, beq_iff_eq] at h
  rcases h with ((rfl | rfl) | rfl) | rfl <;> rfl

lemma isInsertHeaderFalseOfParen (s : String) (h : s.data.head? = some '(') :
    isInsertHeader s = false := by
  by_contra hc
  have := isInsertHeaderHead s (by revert hc; cases isInsertHeader s <;> simp)
  rw [h] at this
  cases this

lemma chunksOfLength (n : ℕ) (l : List String) :
    (chunksOf (n + 1) l).length = (l.length + n) / (n + 1) := by
  match l with
  | [] =>
    simp [chunksOf, Nat.div_eq_of_lt (Nat.lt_succ_of_le (Nat.le_refl n))]
  | x :: xs =>
    have ih := chunksOfLength n (xs.drop n)
    rw [chunksOf]
    simp only [List.length_cons, List.drop_succ_cons, List.length_drop] at ih ⊢
    rw [ih]
    rcases le_or_lt xs.length n with h | h
    · rw [Nat.sub_eq_zero_of_le h]
      rw [Nat.zero_add, Nat.div_eq_of_lt (Nat.lt_succ_of_le (Nat.le_refl n))]
      rw [show xs.length + 1 + n = xs.length + (n + 1) by omega,
        Nat.add_div_right _ (Nat.succ_pos n), Nat.div_eq_of_lt (Nat.lt_succ_of_le h)]
    · rw [Nat.sub_add_cancel (Nat.le_of_lt h),
        show xs.length + 1 + n = xs.length + (n + 1) by omega,
        Nat.add_div_right _ (Nat.succ_pos n)]
termination_by l.length
decreasing_by simp; omega

lemma chunksOfShape (n : ℕ) (l : List String) :
    ∀ c ∈ chunksOf (n + 1) l, c ≠ [] ∧ ∀ x ∈ c, x ∈ l := by
  match l with
  | [] => intro c hc; simp [chunksOf] at hc
  | x :: xs =>
    have ih := chunksOfShape n (xs.drop n)
    intro c hc
    rw [chunksOf] at hc
    simp only [List.drop_succ_cons] at hc
    rcases List.mem_cons.mp hc with rfl | hc
    · refine ⟨by simp, fun y hy => List.take_subset _ _ hy⟩
    · obtain ⟨hne, hsub⟩ := ih c hc
      exact ⟨hne, fun y hy => List.mem_cons_of_mem x (List.drop_subset _ _ (hsub y hy))⟩
termination_by l.length
decreasing_by simp; omega

lemma countBatches (hdr : String) (hh : isInsertHeader hdr = true)
    (bs : List (List String))
    (hb : ∀ b ∈ bs, b ≠ [] ∧ ∀ v ∈ b, v.data.head? = some '(') :
    insertHeaderCount (bs.flatMap fun b => [hdr, joinSep ",\n" b ++ ";"]) = bs.length := by
  induction bs with
  | nil => rfl
  | cons b rest ih =>
    obtain ⟨hne, hv⟩ := hb b (List.mem_cons_self b rest)
    obtain ⟨v, vs, rfl⟩ := List.exists_cons_of_ne_nil hne
    have hline : isInsertHeader (joinSep ",\n" (v :: vs) ++ ";") = false := by
      refine isInsertHeaderFalseOfParen _ ?_
      rw [stringDataAppend]
      exact headAppendLeft _ _ _ (joinSepHead _ _ _ _ (hv v (List.mem_cons_self v vs)))
    have ihr := ih fun b hb' => hb b (List.mem_cons_of_mem _ hb')
    have hpair : insertHeaderCount [hdr, joinSep ",\n" (v :: vs) ++ ";"] = 1 := by
      simp [insertHeaderCount, List.countP_cons, List.countP_nil, hh, hline]
    show insertHeaderCount ([hdr, joinSep ",\n" (v :: vs) ++ ";"] ++
      (rest.flatMap fun b => [hdr, joinSep ",\n" b ++ ";"])) = rest.length + 1
    rw [insertHeaderCount, List.countP_append]
    rw [show List.countP (fun s => isInsertHeader s) [hdr, joinSep ",\n" (v :: vs) ++ ";"] =
      insertHeaderCount [hdr, joinSep ",\n" (v :: vs) ++ ";"] from rfl, hpair]
    rw [show List.countP (fun s => isInsertHeader s)
      (rest.flatMap fun b => [hdr, joinSep ",\n" b ++ ";"]) =
      insertHeaderCount (rest.flatMap fun b => [hdr, joinSep ",\n" b ++ ";"]) from rfl, ihr]
    omega

lemma headParenOfAppend (t : String) : ("(" ++ t).data.head? = some '(' := by
  rw [stringDataAppend]; rfl

lemma anomalyTupleHead (f : AnomalyFields) : (anomalyTuple f).data.head? = some '(' := by
  unfold anomalyTuple; exact headParenOfAppend _

lemma baselineTupleHead (f : BaselineFields) : (baselineTuple f).data.head? = some '(' := by
  unfold baselineTuple; exact headParenOfAppend _

lemma segmentTupleHead (f : SegmentFields) : (segmentTuple f).data.head? = some '(' := by
  unfold segmentTuple; exact headParenOfAppend _

lemma mlRowStringHead (dim src name : String) (b u lo : JValue) :
    (mlRowString dim src name b u lo).data.head? = some '(' := by
  unfold mlRowString; exact headParenOfAppend _

lemma anomalyTuplesHead (d : JValue) : ∀ v ∈ anomalyTuples d, v.data.head? = some '(' := by
  intro v hv
  obtain ⟨f, _, rfl⟩ := List.mem_map.mp hv
  exact anomalyTupleHead f

lemma baselineTuplesHead (d : JValue) : ∀ v ∈ baselineTuples d, v.data.head? = some '(' := by
  intro v hv
  obtain ⟨f, _, rfl⟩ := List.mem_map.mp hv
  exact baselineTupleHead f

lemma segmentTuplesHead (d : JValue) : ∀ v ∈ segmentTuples d, v.data.head? = some '(' := by
  intro v hv
  obtain ⟨r, _, hr⟩ := List.mem_filterMap.mp hv
  match r with
  | .obj fs =>
    simp only [Option.some.injEq] at hr
    rw [← hr]
    exact segmentTupleHead _
  | .null | .bool _ | .num _ | .str _ | .arr _ => simp at hr

lemma batchedInsertCount (hdr : String) (hh : isInsertHeader hdr = true)
    (values : List String) (hv : ∀ v ∈ values, v.data.head? = some '(') :
    insertHeaderCount ((chunksOf 1000 values).flatMap fun b => [hdr, joinSep ",\n" b ++ ";"]) =
      (values.length + 999) / 1000 := by
  have h1000 : (1000 : ℕ) = 999 + 1 := rfl
  rw [countBatches hdr hh _ ?hb, h1000, chunksOfLength]
  case hb =>
    intro b hb
    rw [h1000] at hb
    obtain ⟨h1, h2⟩ := chunksOfShape 999 values b hb
    exact ⟨h1, fun v hv' => hv v (h2 v hv')⟩

/-- Insert-statement count of Section 1 for any truthy document: one per
batch of 1000 anomaly tuples (ceiling division), zero when no tuples. -/
lemma anomProcessCount (d : JValue) (htr : pyTruthy d = true) :
    insertHeaderCount (process_behavioral_anomalies d) = ((anomalyTuples d).length + 999) / 1000 := by
  unfold process_behavioral_anomalies
  rw [htr, if_pos rfl]
  cases hv : (anomalyTuples d).isEmpty with
  | true =>
    rw [List.isEmpty_iff] at hv
    simp [hv, insertHeaderCount, (by decide : isInsertHeader bannerAnomalies = false)]
  | false =>
    simp only [hv, Bool.false_eq_true, if_false]
    rw [insertHeaderCount, List.countP_cons, List.countP_append]
    rw [show List.countP (fun s => isInsertHeader s)
      ((chunksOf 1000 (anomalyTuples d)).flatMap fun b => [anomInsertHeader, joinSep ",\n" b ++ ";"]) =
      insertHeaderCount ((chunksOf 1000 (anomalyTuples d)).flatMap fun b =>
        [anomInsertHeader, joinSep ",\n" b ++ ";"]) from rfl]
    rw [batchedInsertCount anomInsertHeader (by decide) _ (anomalyTuplesHead d)]
    simp [(by decide : isInsertHeader bannerAnomalies = false),
      (by decide : isInsertHeader "" = false)]

/-- Insert-statement count of Section 2: one per batch of 1000
customer-baseline tuples. -/
lemma baseProcessCount (d : JValue) (htr : pyTruthy d = true) :
    insertHeaderCount (process_customer_baselines d) = ((baselineTuples d).length + 999) / 1000 := by
  unfold process_customer_baselines
  rw [htr, if_pos rfl]
  cases hv : (baselineTuples d).isEmpty with
  | true =>
    rw [List.isEmpty_iff] at hv
    simp [hv, insertHeaderCount, (by decide : isInsertHeader bannerBaselines = false)]
  | false =>
    simp only [hv, Bool.false_eq_true, if_false]
    rw [insertHeaderCount, List.countP_cons, List.countP_append]
    rw [show List.countP (fun s => isInsertHeader s)
      ((chunksOf 1000 (baselineTuples d)).flatMap fun b => [baseInsertHeader, joinSep ",\n" b ++ ";"]) =
      insertHeaderCount ((chunksOf 1000 (baselineTuples d)).flatMap fun b =>
        [baseInsertHeader, joinSep ",\n" b ++ ";"]) from rfl]
    rw [batchedInsertCount baseInsertHeader (by decide) _ (baselineTuplesHead d)]
    simp [(by decide : isInsertHeader bannerBaselines = false),
      (by decide : isInsertHeader "" = false)]

/-- Insert-statement count of Section 3: exactly one statement whenever
any segment tuples exist — the source has no batch loop here. -/
lemma segProcessCount (d : JValue) (htr : pyTruthy d = true)
    (hne : segmentTuples d ≠ []) :
    insertHeaderCount (process_segment_performance d) = 1 := by
  unfold process_segment_performance
  rw [htr, if_pos rfl]
  obtain ⟨v, vs, hvv⟩ := List.exists_cons_of_ne_nil hne
  have hline : isInsertHeader (joinSep ",\n" (segmentTuples d) ++ ";") = false := by
    refine isInsertHeaderFalseOfParen _ ?_
    rw [hvv, stringDataAppend]
    exact headAppendLeft _ _ _
      (joinSepHead _ _ _ _ (segmentTuplesHead d v (hvv ▸ List.mem_cons_self v vs)))
  have hemp : (segmentTuples d).isEmpty = false := by
    rw [hvv]; rfl
  simp only [hemp, Bool.false_eq_true, if_false]
  simp [insertHeaderCount, List.countP_cons, hline,
    (by decide : isInsertHeader bannerSegment = false),
    (by decide : isInsertHeader "" = false), (by decide : isInsertHeader segInsertHeader = true)]

lemma anomFieldsConst (c : ℕ) : anomalyFields [("customer_id", JValue.str "C1")] c = anomConstFields := rfl

lemma firstNamedAnomDoc (l : List JValue) :
    firstNamedList [("anomalies", JValue.arr l)] anomalyNamedKeys = l := rfl

lemma anomRecordsDoc (m : ℕ) :
    anomalyRecords (anomDoc (m + 1)) = List.replicate (m + 1) anomRecDoc := by
  simp [anomDoc, anomalyRecords, firstNamedAnomDoc, List.replicate_succ]

lemma anomalyFieldsListReplicate : ∀ (n c : ℕ),
    anomalyFieldsList (List.replicate n anomRecDoc) c = List.replicate n anomConstFields := by
  intro n
  induction n with
  | zero => intro c; rfl
  | succ m ih =>
    intro c
    have ih2 := ih (c + 1)
    simp only [anomRecDoc] at ih2
    simp only [List.replicate_succ, anomRecDoc, anomalyFieldsList, anomFieldsConst c, ih2]

lemma anomTuplesDoc (m : ℕ) :
    anomalyTuples (anomDoc (m + 1)) = List.replicate (m + 1) (anomalyTuple anomConstFields) := by
  rw [anomalyTuples, anomRecordsDoc, anomalyFieldsListReplicate, List.map_replicate]

lemma baseFieldsConst (i : ℕ) : baselineFields [("customer_id", JValue.str "B1")] i = baseConstFields := rfl

lemma firstNamedBaseDoc (l : List JValue) :
    firstNamedList [("customer_baselines", JValue.arr l)] baselineNamedKeys = l := rfl

lemma baseRecordsDoc (n : ℕ) :
    baselineRecords (baseDoc n) = List.replicate n baseRecDoc := by
  simp [baseDoc, baselineRecords, firstNamedBaseDoc]

lemma baselineFieldsListReplicate : ∀ (n i : ℕ),
    baselineFieldsList (List.replicate n baseRecDoc) i = List.replicate n baseConstFields := by
  intro n
  induction n with
  | zero => intro i; rfl
  | succ m ih =>
    intro i
    have ih2 := ih (i + 1)
    simp only [baseRecDoc] at ih2
    simp only [List.replicate_succ, baseRecDoc, baselineFieldsList, baseFieldsConst i, ih2]

lemma baseTuplesDoc (n : ℕ) :
    baselineTuples (baseDoc n) = List.replicate n (baselineTuple baseConstFields) := by
  rw [baselineTuples, baseRecordsDoc, baselineFieldsListReplicate, List.map_replicate]

lemma filterMapReplicate {α β} (f : α → Option β) (a : α) (b : β) (h : f a = some b) :
    ∀ n : ℕ, List.filterMap f (List.replicate n a) = List.replicate n b := by
  intro n
  induction n with
  | zero => rfl
  | succ m ih => rw [List.replicate_succ, List.filterMap_cons, h, ih]; rfl

lemma segRecordsDoc (n : ℕ) :
    segmentRecords (segDoc n) = List.replicate n segRecDoc := by
  simp [segDoc, segmentRecords, segmentNamedKeys, firstNamedList, dictLookup]

lemma segTuplesDoc (n : ℕ) :
    segmentTuples (segDoc n) = List.replicate n (segmentTuple segConstFields) := by
  rw [segmentTuples, segRecordsDoc]
  exact filterMapReplicate
    (fun r => match r with | JValue.obj fs => some (segmentTuple (segmentFields fs)) | _ => none)
    segRecDoc (segmentTuple segConstFields) rfl n

lemma mlMetricRowInt (dim src name : String) (k : ℤ) :
    mlMetricRow dim src name (JValue.num (PyNum.int k)) =
      Except.ok (mlRowString dim src name (JValue.num (PyNum.float (k : ℚ)))
        (JValue.num (PyNum.float ((k : ℚ) * (6 / 5))))
        (JValue.num (PyNum.float ((k : ℚ) * (4 / 5))))) := rfl

lemma mlRowsOfMetricsInts (dim src : String) :
    ∀ ms : List (String × JValue), (∀ p ∈ ms, ∃ k : ℤ, p.2 = JValue.num (PyNum.int k)) →
    ∃ rows, mlRowsOfMetrics dim src ms = .ok rows ∧ rows.length = ms.length ∧
      ∀ r ∈ rows, r.data.head? = some '(' := by
  intro ms
  induction ms with
  | nil => exact fun _ => ⟨[], rfl, rfl, by intro r hr; simp at hr⟩
  | cons p rest ih =>
    intro h
    obtain ⟨name, md⟩ := p
    obtain ⟨k, hk⟩ := h (name, md) (List.mem_cons_self _ _)
    simp only at hk
    subst hk
    obtain ⟨rows, hr, hl, hh⟩ := ih fun q hq => h q (List.mem_cons_of_mem _ hq)
    refine ⟨mlRowString dim src name (JValue.num (PyNum.float (k : ℚ)))
        (JValue.num (PyNum.float ((k : ℚ) * (6 / 5))))
        (JValue.num (PyNum.float ((k : ℚ) * (4 / 5)))) :: rows,
      ?_, by simp [hl], ?_⟩
    · simp only [mlRowsOfMetrics, mlMetricRowInt, hr]
    · intro r hr'
      rcases List.mem_cons.mp hr' with rfl | hmem
      · exact mlRowStringHead ..
      · exact hh r hmem

lemma mlRowsDoc (n : ℕ) (src : String) :
    ∃ rows, mlRows src (mlDoc n) = .ok rows ∧ rows.length = n ∧
      ∀ r ∈ rows, r.data.head? = some '(' := by
  have hints : ∀ p ∈ mlMetricKVs n, ∃ k : ℤ, p.2 = JValue.num (PyNum.int k) := by
    intro p hp
    simp only [mlMetricKVs, List.mem_map] at hp
    obtain ⟨i, _, rfl⟩ := hp
    exact ⟨1, rfl⟩
  obtain ⟨rows, hr, hl, hh⟩ := mlRowsOfMetricsInts "dim" src (mlMetricKVs n) hints
  refine ⟨rows, ?_, ?_, hh⟩
  · show mlRowsOfDims src [("dim", JValue.obj (mlMetricKVs n))] = .ok rows
    simp only [mlRowsOfDims, hr]
    simp
  · simp [hl, mlMetricKVs]

/-- Insert-statement count of a Section 4 contribution with `n > 0`
scalar metrics: exactly one statement, whatever the header flag. -/
lemma mlProcessDoc (n : ℕ) (h : 0 < n) (w : Bool) (src : String) :
    insertHeaderCount (mlSectionsOf w (mlDoc n) src) = 1 := by
  obtain ⟨rows, hr, hl, hh⟩ := mlRowsDoc n src
  have htr : pyTruthy (mlDoc n) = true := rfl
  have hne : rows ≠ [] := by
    intro he
    rw [he] at hl
    simp at hl
    omega
  obtain ⟨v, vs, hvv⟩ := List.exists_cons_of_ne_nil hne
  have hline : isInsertHeader (joinSep ",\n" rows ++ ";") = false := by
    refine isInsertHeaderFalseOfParen _ ?_
    rw [hvv, stringDataAppend]
    exact headAppendLeft _ _ _ (joinSepHead _ _ _ _ (hh v (hvv ▸ List.mem_cons_self v vs)))
  have hemp : rows.isEmpty = false := by rw [hvv]; rfl
  simp only [mlSectionsOf, process_ml_baselines, htr, if_true, hr, hemp,
    Bool.false_eq_true, if_false]
  cases w <;>
    simp [insertHeaderCount, hline,
      (by decide : isInsertHeader bannerML = false),
      (by decide : isInsertHeader mlInsertHeader = true),
      (by decide : isInsertHeader "" = false)]

lemma badDocRaises (src : String) : mlRows src badBaselineDoc = .error .typeError := rfl

lemma badDocProcess (w : Bool) (src : String) :
    process_ml_baselines w badBaselineDoc src = .error .typeError := rfl

lemma badDocStep (st : ConvSt) :
    convertStep st ("ml_baselines", some badBaselineDoc) = .error .typeError := by
  have htr : pyTruthy badBaselineDoc = true := by decide
  simp [convertStep, badDocProcess, mlFileTypes, htr]

/-- C2, code-level evaluation: `escape_sql_string` maps the boolean
`True` to the string `True` and `False` to `False` — not to `1`/`0` as
claimed — because Python's `bool` is a subclass of `int`, so the
`isinstance(value, (int, float))` branch fires first and returns
`str(value)`; the dedicated bool branch is unreachable.  `None` and
plain numbers behave as the claim states. -/
theorem c2_escape_bool_eval :
    escape_sql_string (JValue.bool true) = "True"
  ∧ escape_sql_string (JValue.bool false) = "False"
  ∧ escape_sql_string JValue.null = "NULL"
  ∧ escape_sql_string (JValue.num (PyNum.int 7)) = "7" :=
  ⟨rfl, rfl, rfl, rfl⟩

/-- C4 counterexample: an anomaly record whose `customer_id` key is
present but holds the falsy empty string resolves to the synthesized
placeholder `UNKNOWN_0`, not to the present value — the `or`-chain skips
falsy values. -/
theorem c4_counterexample :
    (anomalyFields [("customer_id", JValue.str "")] 0).customer_id = JValue.str "UNKNOWN_0"
  ∧ (anomalyFields [("customer_id", JValue.str "")] 0).customer_id ≠ JValue.str "" := by
  have h0 : (anomalyFields [("customer_id", JValue.str "")] 0).customer_id =
      JValue.str "UNKNOWN_0" := rfl
  refine ⟨h0, ?_⟩
  rw [h0]
  intro hc
  exact absurd (JValue.str.inj hc) (by decide)

/-- C4 amended: for `customer_id`, `severity` and `flags` the first
*truthy* candidate key wins (a present-but-falsy value is skipped, and
when every candidate is falsy or absent the default is used), while the
`get`-based fields such as `customer_segment` resolve by key *presence*
and do keep present falsy values. -/
theorem c4_amended_fallback (fs : List (String × JValue)) (count : ℕ) (v w : JValue)
    (hv : pyTruthy v = true) :
    (anomalyFields (("customer_id", v) :: fs) count).customer_id = v
  ∧ (anomalyFields (("severity", v) :: fs) count).severity = v
  ∧ (anomalyFields (("flags", v) :: fs) count).flags = v
  ∧ (pyTruthy (dictGet fs "customer_id") = false → pyTruthy (dictGet fs "customerid") = false →
      (anomalyFields fs count).customer_id = JValue.str ("UNKNOWN_" ++ toString count))
  ∧ (dictLookup fs "customer_segment" = some w →
      (anomalyFields fs count).customer_segment = w) := by
  refine ⟨?_, ?_, ?_, ?_, ?_⟩
  · simp [anomalyFields, dictGet, dictLookup, pyOr, hv]
  · simp [anomalyFields, dictGet, dictLookup, pyOr, hv]
  · simp [anomalyFields, dictGet, dictLookup, pyOr, hv]
  · intro h1 h2
    simp [anomalyFields, pyOr, h1, h2]
  · intro hw
    simp [anomalyFields, dictGetD, hw]

/-- C4 witness: a truthy value is kept, and a present falsy
`customer_segment` is kept by the presence-based chain. -/
theorem c4_amended_fallback_witness :
    pyTruthy (JValue.str "S") = true
  ∧ (anomalyFields [("customer_segment", JValue.str "")] 0).customer_segment = JValue.str ""
  ∧ (anomalyFields [("customer_id", JValue.str "S")] 0).customer_id = JValue.str "S" :=
  ⟨by decide,
   (c4_amended_fallback [("customer_segment", JValue.str "")] 0 (JValue.str "S") (JValue.str "")
     (by decide)).2.2.2.2 rfl,
   (c4_amended_fallback [] 0 (JValue.str "S") JValue.null (by decide)).1⟩

lemma pyTruthyNum (b : PyNum) : pyTruthy (JValue.num b) = pyNumTruthy b := by
  cases b with
  | int n =>
    by_cases hn : n = 0
    · subst hn; rfl
    · simp [pyTruthy, pyNumTruthy, PyNum.toRat, hn]
  | float q => rfl

/-- C5: a metric entry that is a mapping with a numeric `baseline` and
none of the threshold keys `upper_threshold`/`max`/`lower_threshold`/
`min` synthesizes `baseline × 1.2` and `baseline × 0.8` (as floats) when
the baseline is truthy, and the int `0` for both when the baseline is
zero; an absent baseline defaults to `0.0` and also yields zeros. -/
theorem c5_threshold_synthesis (ms : List (String × JValue)) (b : PyNum)
    (hbase : dictLookup ms "baseline" = some (JValue.num b))
    (hu1 : dictLookup ms "upper_threshold" = none) (hu2 : dictLookup ms "max" = none)
    (hl1 : dictLookup ms "lower_threshold" = none) (hl2 : dictLookup ms "min" = none) :
    mlThresholds (JValue.obj ms) =
      Except.ok (JValue.num b,
        (if pyNumTruthy b then JValue.num (pyNumMulF b (6 / 5)) else JValue.num (PyNum.int 0)),
        (if pyNumTruthy b then JValue.num (pyNumMulF b (4 / 5)) else JValue.num (PyNum.int 0))) := by
  have hb : dictGetD ms "baseline" (dictGetD ms "mean" (.num (.float 0))) = JValue.num b := by
    simp [dictGetD, hbase]
  have hmul : ∀ q : ℚ, pyMulDefault (JValue.num b) q =
      .ok (if pyNumTruthy b then JValue.num (pyNumMulF b q) else JValue.num (PyNum.int 0)) := by
    intro q
    rw [pyMulDefault, pyTruthyNum]
    cases pyNumTruthy b
    · rfl
    · rfl
  simp only [mlThresholds, hb, hmul]
  simp [dictGetD, hu1, hu2, hl1, hl2]

/-- C5 witness: baseline 100 yields thresholds 120.0 and 80.0; baseline
0 yields 0 and 0. -/
theorem c5_threshold_synthesis_witness :
    dictLookup [("baseline", JValue.num (PyNum.int 100))] "baseline" =
      some (JValue.num (PyNum.int 100))
  ∧ mlThresholds (JValue.obj [("baseline", JValue.num (PyNum.int 100))]) =
      Except.ok (JValue.num (PyNum.int 100), JValue.num (PyNum.float 120),
        JValue.num (PyNum.float 80))
  ∧ mlThresholds (JValue.obj [("baseline", JValue.num (PyNum.int 0))]) =
      Except.ok (JValue.num (PyNum.int 0), JValue.num (PyNum.int 0),
        JValue.num (PyNum.int 0)) := by
  refine ⟨rfl, ?_, ?_⟩
  · rw [c5_threshold_synthesis [("baseline", JValue.num (PyNum.int 100))] (PyNum.int 100)
      rfl rfl rfl rfl rfl]
    have h100 : pyNumTruthy (PyNum.int 100) = true := by decide
    simp only [h100, if_true, pyNumMulF, PyNum.toRat]
    norm_num
  · rw [c5_threshold_synthesis [("baseline", JValue.num (PyNum.int 0))] (PyNum.int 0)
      rfl rfl rfl rfl rfl]
    have h0 : pyNumTruthy (PyNum.int 0) = false := by decide
    simp [h0]

lemma firstNamedListNil (kvs : List (String × JValue)) :
    ∀ keys : List String,
      (∀ k ∈ keys, ∀ v, dictLookup kvs k = some v → ∀ xs, v ≠ JValue.arr xs) →
      firstNamedList kvs keys = [] := by
  intro keys
  induction keys with
  | nil => intro _; rfl
  | cons k ks ih =>
    intro h
    have hrec := ih fun k' hk' => h k' (List.mem_cons_of_mem _ hk')
    cases hl : dictLookup kvs k with
    | none => simp [firstNamedList, hl, hrec]
    | some v =>
      cases v with
      | arr xs => exact absurd rfl (h k (List.mem_cons_self _ _) _ hl xs)
      | null => simp [firstNamedList, hl, hrec]
      | bool b => simp [firstNamedList, hl, hrec]
      | num m => simp [firstNamedList, hl, hrec]
      | str s => simp [firstNamedList, hl, hrec]
      | obj o => simp [firstNamedList, hl, hrec]

lemma scanListAppend (pre rest : List (String × JValue))
    (hpre : ∀ p ∈ pre, qualifies p.2 = false) :
    scanList (pre ++ rest) = scanList rest := by
  induction pre with
  | nil => rfl
  | cons p ps ih =>
    obtain ⟨k, v⟩ := p
    have hq : qualifies v = false := hpre (k, v) (List.mem_cons_self _ _)
    simp only [List.cons_append, scanList, hq, Bool.false_eq_true, if_false]
    exact ih fun p hp => hpre p (List.mem_cons_of_mem _ hp)

/-- C6: when no named key (`customer_anomalies`, `behavioral_anomalies`,
`anomalies`) is bound to a list, the Anomaly Extractor scans the mapping
values in order and takes the first qualifying one — a non-empty list
whose first element is a mapping containing one of the probe keys; and
the concrete document `{"foo": [{"customer_id": "C2", "severity":
"High"}]}` yields exactly one record with customer_id `C2` and severity
`High`. -/
theorem c6_heuristic_scan (pre post : List (String × JValue)) (k : String) (l : List JValue)
    (hnamed : ∀ nk ∈ anomalyNamedKeys, ∀ v,
      dictLookup (pre ++ (k, JValue.arr l) :: post) nk = some v → ∀ xs, v ≠ JValue.arr xs)
    (hpre : ∀ p ∈ pre, qualifies p.2 = false)
    (hq : qualifies (JValue.arr l) = true) :
    anomalyRecords (JValue.obj (pre ++ (k, JValue.arr l) :: post)) = l
  ∧ anomalyFieldsList (anomalyRecords (JValue.obj [("foo", JValue.arr exampleScanList)])) 0 =
      [{ customer_id := JValue.str "C2", customer_segment := JValue.str "Unknown",
         value_tier := JValue.str "Unknown", severity := JValue.str "High",
         flags := JValue.num (PyNum.int 0), types := JValue.str "" }] := by
  constructor
  · have hnil := firstNamedListNil (pre ++ (k, JValue.arr l) :: post) anomalyNamedKeys hnamed
    simp only [anomalyRecords, hnil, List.isEmpty_nil, if_true]
    rw [scanListAppend pre _ hpre]
    simp [scanList, hq, JValue.asArr]
  · rfl

/-- C6 witness: the example document satisfies the hypotheses and the
scan finds its record. -/
theorem c6_heuristic_scan_witness :
    (∀ nk ∈ anomalyNamedKeys, ∀ v,
      dictLookup [("foo", JValue.arr exampleScanList)] nk = some v → ∀ xs, v ≠ JValue.arr xs)
  ∧ qualifies (JValue.arr exampleScanList) = true
  ∧ anomalyRecords (JValue.obj [("foo", JValue.arr exampleScanList)]) = exampleScanList := by
  have hn : ∀ nk ∈ anomalyNamedKeys, ∀ v,
      dictLookup [("foo", JValue.arr exampleScanList)] nk = some v → ∀ xs, v ≠ JValue.arr xs := by
    intro nk hnk v hv xs
    simp only [anomalyNamedKeys] at hnk
    fin_cases hnk <;> simp [dictLookup] at hv
  refine ⟨hn, rfl, ?_⟩
  exact (c6_heuristic_scan [] [] "foo" exampleScanList hn (by simp) rfl).1

/-- C7 witness: a truthy document with an unrecognized shape. -/
theorem c7_zero_records_no_insert_witness :
    anomalyRecords (JValue.obj [("zzz", JValue.str "x")]) = []
  ∧ segmentRecords (JValue.obj [("zzz", JValue.str "x")]) = []
  ∧ insertHeaderCount (process_behavioral_anomalies (JValue.obj [("zzz", JValue.str "x")])) = 0
  ∧ insertHeaderCount (process_segment_performance (JValue.obj [("zzz", JValue.str "x")])) = 0 :=
  ⟨rfl, rfl,
   (c7_zero_records_no_insert (JValue.obj [("zzz", JValue.str "x")]) rfl rfl).2.2.2.2.1,
   (c7_zero_records_no_insert (JValue.obj [("zzz", JValue.str "x")]) rfl rfl).2.2.2.2.2⟩

/-- C9: for every truthy document dispatched to the anomaly,
customer-baseline or segment-performance extractor, the section's fixed
comment banner is the *first* string appended — before any shape
matching — so it appears even when the document matches no shape and no
`INSERT` is emitted. -/
theorem c9_banner_first (d : JValue) (htr : pyTruthy d = true) :
    (process_behavioral_anomalies d).head? = some bannerAnomalies
  ∧ (process_customer_baselines d).head? = some bannerBaselines
  ∧ (process_segment_performance d).head? = some bannerSegment := by
  unfold process_behavioral_anomalies process_customer_baselines process_segment_performance
  rw [htr]
  exact ⟨rfl, rfl, rfl⟩

/-- C9 witness: a truthy document that matches no shape still gets all
three banners first. -/
theorem c9_banner_first_witness :
    pyTruthy (JValue.obj [("zzz", JValue.str "x")]) = true
  ∧ (process_behavioral_anomalies (JValue.obj [("zzz", JValue.str "x")])).head? =
      some bannerAnomalies
  ∧ (process_customer_baselines (JValue.obj [("zzz", JValue.str "x")])).head? =
      some bannerBaselines
  ∧ (process_segment_performance (JValue.obj [("zzz", JValue.str "x")])).head? =
      some bannerSegment :=
  ⟨rfl, (c9_banner_first (JValue.obj [("zzz", JValue.str "x")]) rfl).1,
   (c9_banner_first (JValue.obj [("zzz", JValue.str "x")]) rfl).2.1,
   (c9_banner_first (JValue.obj [("zzz", JValue.str "x")]) rfl).2.2⟩

lemma convertLoopCons (st : ConvSt) (file : String × Option JValue)
    (rest : List (String × Option JValue)) :
    convertLoop st (file :: rest) =
      match convertStep st file with
      | .error e => .error e
      | .ok stNext => convertLoop stNext rest := rfl

/-- C1 counterexample: a segment-performance document with 1001 records
produces exactly one `INSERT` statement, not the two 1000-record batches
the claim asserts for all four tables — the source has no batch loop for
`segment_performance`. -/
theorem c1_counterexample :
    insertHeaderCount (process_segment_performance (segDoc 1001)) = 1
  ∧ insertHeaderCount (process_segment_performance (segDoc 1001)) ≠ 2 := by
  have hne : segmentTuples (segDoc 1001) ≠ [] := by
    rw [segTuplesDoc]
    simp
  have h := segProcessCount (segDoc 1001) rfl hne
  exact ⟨h, by rw [h]; decide⟩

/-- C1 amended: the 1000-record batch split holds for the
`customer_anomalies` and `customer_baselines` sections (for `n` records,
`⌈n/1000⌉` INSERT statements — so 1000 records give one block and 1001
give two), while the `segment_performance` and `ml_baselines` sections
always emit exactly one `INSERT` statement for any non-empty record
sequence. -/
theorem c1_amended_batching (n : ℕ) (h : 0 < n) :
    insertHeaderCount (process_behavioral_anomalies (anomDoc n)) = (n + 999) / 1000
  ∧ insertHeaderCount (process_customer_baselines (baseDoc n)) = (n + 999) / 1000
  ∧ insertHeaderCount (process_segment_performance (segDoc n)) = 1
  ∧ insertHeaderCount (mlSectionsOf false (mlDoc n) "ml_baselines") = 1 := by
  obtain ⟨m, rfl⟩ := Nat.exists_eq_succ_of_ne_zero h.ne'
  refine ⟨?_, ?_, ?_, mlProcessDoc _ h false _⟩
  · rw [anomProcessCount (anomDoc (m + 1)) rfl, anomTuplesDoc, List.length_replicate]
  · rw [baseProcessCount (baseDoc (m + 1)) rfl, baseTuplesDoc, List.length_replicate]
  · refine segProcessCount (segDoc (m + 1)) rfl ?_
    rw [segTuplesDoc]
    simp

/-- C1 witness: one record in each section. -/
theorem c1_amended_batching_witness :
    0 < 1
  ∧ insertHeaderCount (process_behavioral_anomalies (anomDoc 1)) = (1 + 999) / 1000
  ∧ insertHeaderCount (process_customer_baselines (baseDoc 1)) = (1 + 999) / 1000
  ∧ insertHeaderCount (process_segment_performance (segDoc 1)) = 1
  ∧ insertHeaderCount (mlSectionsOf false (mlDoc 1) "ml_baselines") = 1 :=
  ⟨by decide, (c1_amended_batching 1 (by decide)).1, (c1_amended_batching 1 (by decide)).2.1,
   (c1_amended_batching 1 (by decide)).2.2.1, (c1_amended_batching 1 (by decide)).2.2.2⟩

/-- C3 counterexample: a successfully parsed metric-tree document whose
baseline is the non-numeric string `"abc"` raises an uncaught
`TypeError` inside the extractor; the error escapes the per-file loop,
aborting the processing of the subsequent (perfectly fine) file. -/
theorem c3_counterexample :
    convertLoop initSt [("ml_baselines", some badBaselineDoc),
      ("customer_segments", some (JValue.obj [("x", JValue.null)]))] =
      Except.error PyErr.typeError := by
  rw [convertLoopCons, badDocStep initSt]

/-- C3 amended: a file whose parse failed (`load_json_safe` returned
`None`) is contained — it contributes nothing and the remaining files
are processed exactly as if it were absent — and the anomaly,
customer-baseline and segment extractors never raise; but an exception
inside the metric-tree extractor is not caught and escapes the
conversion (see the counterexample). -/
theorem c3_amended_containment :
    (∀ (st : ConvSt) (ft : String) (rest : List (String × Option JValue)),
      convertLoop st ((ft, Option.none) :: rest) = convertLoop st rest)
  ∧ (∀ (st : ConvSt) (d : JValue) (ft : String),
      ft ∈ ["behavioral_anomalies", "customer_comprehensive", "customer_segments"] →
      (convertStep st (ft, some d)).isOk = true) := by
  constructor
  · intro st ft rest
    rfl
  · intro st d ft hft
    fin_cases hft <;>
      cases hd : pyTruthy d <;> simp [convertStep, hd, Except.isOk, Except.toBool]

/-- C3 witness: a parse-failed entry is a no-op and a dispatched
anomaly file returns without an exception. -/
theorem c3_amended_containment_witness :
    ("behavioral_anomalies" ∈ ["behavioral_anomalies", "customer_comprehensive", "customer_segments"])
  ∧ convertLoop initSt [("ml_baselines", Option.none)] = convertLoop initSt []
  ∧ (convertStep initSt ("behavioral_anomalies", some (JValue.obj [("x", JValue.null)]))).isOk = true :=
  ⟨by decide, c3_amended_containment.1 initSt "ml_baselines" [],
   c3_amended_containment.2 initSt (JValue.obj [("x", JValue.null)]) "behavioral_anomalies"
     (by decide)⟩

/-- C8 counterexample: a run with one present file and a succeeding
write neither returns success nor failure — the extractor's `TypeError`
escapes `convert_all` — refuting that every run other than
no-input/write-failure returns a success result. -/
theorem c8_counterexample :
    convert_all [("ml_baselines", some badBaselineDoc)] true = Except.error PyErr.typeError
  ∧ convert_all [("ml_baselines", some badBaselineDoc)] true ≠ Except.ok true := by
  have hloop : convertLoop initSt [("ml_baselines", some badBaselineDoc)] =
      Except.error PyErr.typeError := by
    rw [convertLoopCons, badDocStep initSt]
  have h : convert_all [("ml_baselines", some badBaselineDoc)] true =
      Except.error PyErr.typeError := by
    simp [convert_all, hloop]
  refine ⟨h, ?_⟩
  rw [h]
  intro hc
  cases hc

/-- C8 amended: `convert_all` returns the failure result exactly for an
empty file inventory or a failed write, and the success result
otherwise, *provided* the per-file loop raises no exception; a run in
which an extractor raises returns no result at all. -/
theorem c8_amended_result (files : List (String × Option JValue)) (w : Bool)
    (hne : files ≠ []) (hok : (convertLoop initSt files).isOk = true) :
    convert_all files w = Except.ok w ∧ convert_all [] w = Except.ok false := by
  constructor
  · cases hloop : convertLoop initSt files with
    | error e => rw [hloop] at hok; simp [Except.isOk, Except.toBool] at hok
    | ok st =>
      have hemp : files.isEmpty = false := by
        cases files with
        | nil => exact absurd rfl hne
        | cons f fs => rfl
      simp [convert_all, hemp, hloop]
  · rfl

/-- C8 witness: one well-formed anomaly file, write succeeding. -/
theorem c8_amended_result_witness :
    ([("behavioral_anomalies", some (JValue.obj [("x", JValue.null)]))] ≠
      ([] : List (String × Option JValue)))
  ∧ (convertLoop initSt [("behavioral_anomalies", some (JValue.obj [("x", JValue.null)]))]).isOk
      = true
  ∧ convert_all [("behavioral_anomalies", some (JValue.obj [("x", JValue.null)]))] true =
      Except.ok true := by
  refine ⟨by simp, rfl, ?_⟩
  exact (c8_amended_result [("behavioral_anomalies", some (JValue.obj [("x", JValue.null)]))]
    true (by simp) rfl).1

/-- C10: a file whose parsed JSON value is falsy (empty mapping, empty
list, `0`, `false`, `null`, `""`) is never dispatched to its extractor:
the loop step leaves the state untouched — exactly as for a file that
failed to parse — no banner is appended, and the remaining files are
processed as if the file were absent. -/
theorem c10_falsy_skipped (st : ConvSt) (ft : String) (d : JValue)
    (rest : List (String × Option JValue)) (hf : pyTruthy d = false) :
    convertStep st (ft, some d) = Except.ok st
  ∧ convertStep st (ft, some d) = convertStep st (ft, Option.none)
  ∧ convertLoop st ((ft, some d) :: rest) = convertLoop st rest := by
  have hstep : convertStep st (ft, some d) = Except.ok st := by
    simp [convertStep, hf]
  refine ⟨hstep, by rw [hstep]; rfl, ?_⟩
  rw [convertLoopCons, hstep]

/-- C10 witness: the empty mapping is falsy and skipped. -/
theorem c10_falsy_skipped_witness :
    pyTruthy (JValue.obj []) = false
  ∧ convertStep initSt ("behavioral_anomalies", some (JValue.obj [])) = Except.ok initSt
  ∧ convertLoop initSt [("behavioral_anomalies", some (JValue.obj []))] = convertLoop initSt [] :=
  ⟨rfl, (c10_falsy_skipped initSt "behavioral_anomalies" (JValue.obj []) [] rfl).1,
   (c10_falsy_skipped initSt "behavioral_anomalies" (JValue.obj []) [] rfl).2.2⟩

